import Mathlib

/-!
Verification of the turn-orchestration and context-assembly pipeline of the
`asistente_virtual` Streamlit application (`src/app.py`).

The embedding models:
* the JSON knowledge record and its pretty-printed serialization
  (`json.dumps(knowledge, indent=2, ensure_ascii=False)`);
* the context loaders `load_prompt`, `load_knowledge`, `load_cv`;
* the system-message construction and message assembly done inline in `main`;
* the completion gateway `call_llm_api` (HTTP POST, `raise_for_status`,
  extraction of `response.json()["choices"][0]["message"]["content"]`);
* the Google-Sheets logger `get_gsheets_client` / `log_interaction` with all
  its caught failure modes;
* the per-rerun orchestration of `main` (Streamlit re-executes the whole
  script body on each interaction; session state persists across reruns).

External effects (file system contents, HTTP responses, sheet availability,
clock) are passed in explicitly, so every function is pure and total; a
Python exception escaping a modelled code region is represented with
`Except.error` carrying the exception text.
-/

namespace AsistenteVirtual

/-- JSON values, as produced by `json.load` for `knowledge.json`. -/
inductive Json : Type where
  | null : Json
  | bool : Bool → Json
  | num : Int → Json
  | str : String → Json
  | arr : List Json → Json
  | obj : List (String × Json) → Json
deriving Repr

/-- Escape of one character inside a JSON string literal. -/
def escape_json_char (c : Char) : String :=
  if c = '\\' then "\\\\"
  else if c = '"' then "\\\""
  else if c = '\n' then "\\n"
  else if c = '\t' then "\\t"
  else if c = '\r' then "\\r"
  else String.singleton c

/-- Escape of a JSON string body. -/
def escape_json (s : String) : String :=
  s.data.foldl (fun acc c => acc ++ escape_json_char c) ""

/-- `n` spaces, the indentation unit of `json.dumps(..., indent=2)`. -/
def spaces (n : Nat) : String :=
  String.mk (List.replicate n ' ')

mutual

/-- Serialization of one JSON value at indentation `ind`, modelling
`json.dumps(knowledge, indent=2, ensure_ascii=False)`. -/
def Json.dumps_val (ind : Nat) : Json → String
  | .null => "null"
  | .bool b => if b then "true" else "false"
  | .num n => toString n
  | .str s => "\"" ++ escape_json s ++ "\""
  | .arr xs => Json.dumps_arr ind xs
  | .obj fs => Json.dumps_obj ind fs

/-- Serialization of a JSON array with `indent=2` layout. -/
def Json.dumps_arr (ind : Nat) : List Json → String
  | [] => "[]"
  | x :: xs =>
    "[\n" ++ spaces (ind + 2) ++ Json.dumps_val (ind + 2) x ++
      Json.dumps_arr_rest (ind + 2) xs ++ "\n" ++ spaces ind ++ "]"

/-- Remaining elements of a JSON array, each preceded by a comma. -/
def Json.dumps_arr_rest (ind : Nat) : List Json → String
  | [] => ""
  | x :: xs =>
    ",\n" ++ spaces ind ++ Json.dumps_val ind x ++ Json.dumps_arr_rest ind xs

/-- Serialization of a JSON object with `indent=2` layout. -/
def Json.dumps_obj (ind : Nat) : List (String × Json) → String
  | [] => "\x7b\x7d"
  | f :: fs =>
    "\x7b\n" ++ spaces (ind + 2) ++ "\"" ++ escape_json f.1 ++ "\": " ++
      Json.dumps_val (ind + 2) f.2 ++ Json.dumps_obj_rest (ind + 2) fs ++
      "\n" ++ spaces ind ++ "\x7d"

/-- Remaining fields of a JSON object, each preceded by a comma. -/
def Json.dumps_obj_rest (ind : Nat) : List (String × Json) → String
  | [] => ""
  | f :: fs =>
    ",\n" ++ spaces ind ++ "\"" ++ escape_json f.1 ++ "\": " ++
      Json.dumps_val ind f.2 ++ Json.dumps_obj_rest ind fs

end

/-- Top-level pretty-printed serialization of the knowledge record. -/
def Json.dumps (j : Json) : String := Json.dumps_val 0 j

/-- One chat message: a `{"role": ..., "content": ...}` dictionary. -/
structure Message : Type where
  role : String
  content : String
deriving DecidableEq, Repr

/-- The three static context sources read by `main` on every script run:
`prompt.txt`, `knowledge.json`, and the optional `CV.pdf` given as the list
of page-extraction results (`page.extract_text()`, with `""` standing for a
page whose extraction yields `None` or the empty string); `none` means the
file `CV.pdf` does not exist. -/
structure FileSystem : Type where
  promptTxt : String
  knowledgeJson : Json
  cvPdfPages : Option (List String)

/-- `load_prompt`: reads `prompt.txt` wholesale. -/
def load_prompt (fs : FileSystem) : String := fs.promptTxt

/-- `load_knowledge`: reads and parses `knowledge.json`. -/
def load_knowledge (fs : FileSystem) : Json := fs.knowledgeJson

/-- Python's `str.strip()`: removes whitespace characters from both ends of
the string. -/
def strip (s : String) : String :=
  ⟨((s.data.dropWhile Char.isWhitespace).reverse.dropWhile Char.isWhitespace).reverse⟩

/-- `load_cv`: if `CV.pdf` is absent the accumulated text is `""`; otherwise
each page whose extracted text is truthy (non-empty) is appended followed by
`"\n"`; the accumulated text is returned through `.strip()`. -/
def load_cv (cvPdf : Option (List String)) : String :=
  strip
    (match cvPdf with
     | none => ""
     | some pages =>
       pages.foldl (fun acc t => if t = "" then acc else acc ++ t ++ "\n") "")

/-- The static context a rerun of `main` works with: the values of the
locals `base_prompt`, `knowledge` and `cv_text`. -/
structure ContextBundle : Type where
  base_prompt : String
  knowledge : Json
  cv_text : String

/-- One full context load, as performed by `main` lines 125-127 on every
script rerun. -/
def load_context (fs : FileSystem) : ContextBundle :=
  { base_prompt := load_prompt fs
    knowledge := load_knowledge fs
    cv_text := load_cv fs.cvPdfPages }

/-- The closing instruction appended at the end of the system message. -/
def closing_instruction : String :=
  "Usa esta información para responder de manera precisa, clara y profesional."

/-- The synthesized system message built inline in `main` (lines 134-142). -/
def system_message (b : ContextBundle) : Message :=
  { role := "system"
    content :=
      b.base_prompt ++ "\n\n" ++ "Información de knowledge.json:\n" ++
        Json.dumps b.knowledge ++ "\n\n" ++ "Extracto de CV:\n" ++
        b.cv_text ++ "\n\n" ++ closing_instruction }

/-- Message assembly of `main` lines 144-145:
`messages = [system_message] + chat_history; messages.append(user)`. -/
def assemble_messages (b : ContextBundle) (history : List Message)
    (input : String) : List Message :=
  system_message b :: (history ++ [{ role := "user", content := input }])

/-- The body delivered with an HTTP response: either not decodable as JSON
(`response.json()` raises, text of that exception recorded) or a JSON
value. -/
inductive HttpBody : Type where
  | invalid : String → HttpBody
  | json : Json → HttpBody

/-- Outcome of one `requests.post` attempt: a transport-level exception
(connection failure, timeout, ..., with its text) or a response with a
status code and a body. -/
inductive HttpOutcome : Type where
  | transportError : String → HttpOutcome
  | response : Nat → HttpBody → HttpOutcome

/-- Key lookup in a JSON object (`body[key]`); `none` when the value is not
an object or the key is missing (Python raises `TypeError`/`KeyError`). -/
def Json.lookup (j : Json) (key : String) : Option Json :=
  match j with
  | .obj fields =>
    match fields.find? (fun f => f.1 = key) with
    | some f => some f.2
    | none => none
  | _ => none

/-- Extraction of `body["choices"][0]["message"]["content"]`; a shape
mismatch that breaks the subscripting raises the corresponding Python
exception, carried as text — but a present `content` value is returned
as-is, whatever its type: the source performs no type check on it. -/
def extract_content (body : HttpBody) : Except String Json :=
  match body with
  | .invalid e => .error e
  | .json j =>
    match j.lookup "choices" with
    | none => .error "KeyError: choices"
    | some choices =>
      match choices with
      | .arr (c :: _) =>
        match c.lookup "message" with
        | none => .error "KeyError: message"
        | some m =>
          match m.lookup "content" with
          | some v => .ok v
          | none => .error "KeyError: content"
      | .arr [] => .error "IndexError: list index out of range"
      | _ => .error "TypeError: choices is not a list"

/-- `requests` timeout passed on every call (`timeout=60`). -/
def request_timeout : Nat := 60

/-- `call_llm_api`: one `requests.post` with the fixed timeout (the `send`
argument stands for the network; it receives the messages and the timeout),
then `raise_for_status()` (which raises exactly for status codes 400-599),
then extraction of the first choice's message content.  The second component
counts the POST attempts performed. -/
def call_llm_api (send : List Message → Nat → HttpOutcome)
    (messages : List Message) : Except String Json × Nat :=
  match send messages request_timeout with
  | .transportError e => (.error e, 1)
  | .response status body =>
    if 400 ≤ status ∧ status < 600 then
      (.error ("HTTPError: status " ++ toString status), 1)
    else
      match extract_content body with
      | .ok s => (.ok s, 1)
      | .error e => (.error e, 1)

/-- A cell of a spreadsheet row (the Python row mixes strings and the
integer `duration_ms`). -/
inductive Cell : Type where
  | str : String → Cell
  | int : Nat → Cell
deriving DecidableEq, Repr

/-- The data of one completed exchange handed to `log_interaction`
(timestamp from `datetime.utcnow().isoformat()`, `st.session_state.session_id`,
the two turn texts, the measured duration, and the client identifier). -/
structure InteractionRecord : Type where
  timestampUtc : String
  sessionId : String
  userInput : String
  assistantReply : String
  durationMs : Nat
  clientIdentifier : String

/-- Environment of the Google-Sheets logging path: the
`GOOGLE_CREDENTIALS_JSON` variable, and the outcomes of the three fallible
steps (parsing/authorizing the credentials, opening the spreadsheet and
worksheet, appending the row); `Except.error` carries the exception text. -/
structure GSheetsEnv : Type where
  credentialsJson : Option String
  authResult : Except String Unit
  openResult : Except String Unit
  appendResult : Except String Unit

/-- `get_gsheets_client`: returns `(client?, warning?)` — `none` with an
`st.error` warning when the credentials variable is missing or when
parsing/authorization raises (caught by its own `try/except`). -/
def get_gsheets_client (env : GSheetsEnv) : Option Unit × Option String :=
  match env.credentialsJson with
  | none => (none, some "⚠️ No se encontró GOOGLE_CREDENTIALS_JSON en los secrets")
  | some _ =>
    match env.authResult with
    | .error e => (none, some ("Error conectando con Google Sheets: " ++ e))
    | .ok _ => (some (), none)

/-- Observable outcome of `log_interaction`: either one row appended to the
sheet, or only a warning shown via `st.error` (no row, no exception). -/
inductive LogOutcome : Type where
  | appended : List Cell → LogOutcome
  | warned : String → LogOutcome
deriving DecidableEq, Repr

/-- The row built by `log_interaction` (lines 85-92), in source order. -/
def row_of (r : InteractionRecord) : List Cell :=
  [Cell.str r.timestampUtc, Cell.str r.sessionId, Cell.str r.userInput,
   Cell.str r.assistantReply, Cell.int r.durationMs, Cell.str r.clientIdentifier]

/-- `log_interaction`: obtain a client (early return when `None`), open the
spreadsheet and worksheet, append the row; any exception in the `try` body
is caught and turned into an `st.error` warning. -/
def log_interaction (env : GSheetsEnv) (r : InteractionRecord) : LogOutcome :=
  match get_gsheets_client env with
  | (none, some w) => .warned w
  | (none, none) => .warned ""
  | (some _, _) =>
    match env.openResult with
    | .error e => .warned ("No se pudo registrar en Google Sheets: " ++ e)
    | .ok _ =>
      match env.appendResult with
      | .error e => .warned ("No se pudo registrar en Google Sheets: " ++ e)
      | .ok _ => .appended (row_of r)

/-- Per-session state kept in `st.session_state`: the generated
`session_id` and the accumulated `chat_history`. -/
structure SessionState : Type where
  sessionId : String
  chatHistory : List Message
deriving DecidableEq, Repr

/-- The reply recorded by `main`'s `try/except` around `call_llm_api`: the
returned text on success, the formatted error string
`f"Error consultando el modelo: {e}"` on any raised exception. -/
def reply_for (r : Except String String) : String :=
  match r with
  | .ok s => s
  | .error e => "Error consultando el modelo: " ++ e

/-- One execution of the `if user_input:` block of `main` (lines 131-158):
with falsy (empty) input nothing happens; otherwise the messages are
assembled, the completion call is attempted (`llm` is the fallible call,
`Except.error` standing for a raised exception), the user and assistant
turns are appended in that order, and `log_interaction` runs.  Returns the
updated session state and the logging outcome (`none` when no log attempt
is made). -/
def run_turn (b : ContextBundle) (llm : List Message → Except String String)
    (env : GSheetsEnv) (userAgent now : String) (durationMs : Nat)
    (st : SessionState) (input : String) : SessionState × Option LogOutcome :=
  if input = "" then (st, none)
  else
    let messages := assemble_messages b st.chatHistory input
    let reply := reply_for (llm messages)
    let st' : SessionState :=
      { sessionId := st.sessionId
        chatHistory := st.chatHistory ++
          [{ role := "user", content := input },
           { role := "assistant", content := reply }] }
    (st', some (log_interaction env
      { timestampUtc := now, sessionId := st.sessionId, userInput := input,
        assistantReply := reply, durationMs := durationMs,
        clientIdentifier := userAgent }))

/-- The per-rerun inputs that are not the file system: completion call,
logging environment, client identifier, clock values, and the text-input
widget's value. -/
structure TurnCtx : Type where
  llm : List Message → Except String String
  env : GSheetsEnv
  userAgent : String
  now : String
  durationMs : Nat
  input : String

/-- One Streamlit rerun of `main`'s body for an existing session: the
context is loaded from the current file system (lines 125-127), then the
input block runs.  Returns the new session state and the context bundle
loaded by this rerun. -/
def rerun (fs : FileSystem) (ctx : TurnCtx) (st : SessionState) :
    SessionState × ContextBundle :=
  let bundle := load_context fs
  ((run_turn bundle ctx.llm ctx.env ctx.userAgent ctx.now ctx.durationMs
      st ctx.input).1, bundle)

/-- A session: a sequence of reruns, each against the then-current file
system.  Returns the final state and the list of context bundles loaded,
one per rerun. -/
def run_session (st : SessionState) :
    List (FileSystem × TurnCtx) → SessionState × List ContextBundle
  | [] => (st, [])
  | step :: rest =>
    let p := rerun step.1 step.2 st
    let q := run_session p.1 rest
    (q.1, p.2 :: q.2)

/-! ### Concrete sample values used by witnesses and counterexamples -/

/-- A small concrete context bundle. -/
def sample_bundle : ContextBundle :=
  { base_prompt := "p", knowledge := Json.null, cv_text := "" }

/-- A small concrete file system with no `CV.pdf`. -/
def sample_fs : FileSystem :=
  { promptTxt := "p", knowledgeJson := Json.null, cvPdfPages := none }

/-- A completion call that always succeeds with reply `"hola"`. -/
def llm_ok : List Message → Except String String := fun _ => .ok "hola"

/-- A completion call that always raises, with exception text `"boom"`. -/
def llm_fail : List Message → Except String String := fun _ => .error "boom"

/-- A logging environment with `GOOGLE_CREDENTIALS_JSON` unset. -/
def env_missing_creds : GSheetsEnv :=
  { credentialsJson := none, authResult := .ok (), openResult := .ok (),
    appendResult := .ok () }

/-- A fully working logging environment. -/
def env_ok : GSheetsEnv :=
  { credentialsJson := some "creds", authResult := .ok (), openResult := .ok (),
    appendResult := .ok () }

/-- A concrete rerun context with successful collaborators. -/
def sample_ctx : TurnCtx :=
  { llm := llm_ok, env := env_ok, userAgent := "ua", now := "t",
    durationMs := 0, input := "hola" }

/-- A concrete fresh session state. -/
def st0 : SessionState := { sessionId := "sess", chatHistory := [] }

/-- A concrete interaction record. -/
def sample_record : InteractionRecord :=
  { timestampUtc := "2024-01-01T00:00:00", sessionId := "sess",
    userInput := "hola", assistantReply := "hola", durationMs := 5,
    clientIdentifier := "streamlit-client" }

/-! ### Claim theorems -/

/-- C1: the assembled sequence is exactly the synthesized system message,
then all stored history turns in order, then the new input as a final
user-role message; the system message concatenates, in this fixed order,
the instruction prompt, the pretty-printed knowledge record, the
reference-document text and the closing instruction; and assembly is pure
(identical inputs give identical output). -/
theorem assemble_messages_order (b : ContextBundle) (h : List Message)
    (i : String) :
    assemble_messages b h i =
      system_message b :: (h ++ [{ role := "user", content := i }])
    ∧ (system_message b).role = "system"
    ∧ (∃ g₁ g₂ g₃, (system_message b).content =
        b.base_prompt ++ g₁ ++ Json.dumps b.knowledge ++ g₂ ++ b.cv_text ++
          g₃ ++ closing_instruction)
    ∧ (∀ b' h' i', b = b' → h = h' → i = i' →
        assemble_messages b h i = assemble_messages b' h' i') := by
  refine ⟨rfl, rfl,
    ⟨"\n\n" ++ "Información de knowledge.json:\n", "\n\n" ++ "Extracto de CV:\n",
     "\n\n", ?_⟩, ?_⟩
  · show (system_message b).content = _
    apply String.ext
    simp [system_message]
  · intro b' h' i' hb hh hi
    subst hb; subst hh; subst hi
    rfl

/-- C1 witness: the theorem applied at a concrete bundle, history and
input. -/
theorem assemble_messages_order_witness :
    assemble_messages sample_bundle [] "q" =
      system_message sample_bundle :: [{ role := "user", content := "q" }]
    ∧ assemble_messages sample_bundle [] "q" =
      assemble_messages sample_bundle [] "q" :=
  ⟨(assemble_messages_order sample_bundle [] "q").1,
   (assemble_messages_order sample_bundle [] "q").2.2.2
     sample_bundle [] "q" rfl rfl rfl⟩

/-- C2: a turn never removes past turns (the old history is a prefix of the
new one); a completed exchange appends exactly the user turn then the
assistant turn; and evenness of the history length is preserved across any
turn. -/
theorem history_pairing_invariant (b : ContextBundle)
    (llm : List Message → Except String String) (env : GSheetsEnv)
    (ua now : String) (d : Nat) (st : SessionState) (input : String) :
    (∃ tail, ((run_turn b llm env ua now d st input).1).chatHistory =
        st.chatHistory ++ tail)
    ∧ (input ≠ "" →
        ((run_turn b llm env ua now d st input).1).chatHistory =
          st.chatHistory ++
            [{ role := "user", content := input },
             { role := "assistant",
               content := reply_for (llm (assemble_messages b st.chatHistory input)) }])
    ∧ (Even st.chatHistory.length →
        Even ((run_turn b llm env ua now d st input).1).chatHistory.length) := by
  by_cases hi : input = ""
  · subst hi
    exact ⟨⟨[], by simp [run_turn]⟩, fun hc => absurd rfl hc,
      fun h => by simpa [run_turn] using h⟩
  · refine ⟨⟨[{ role := "user", content := input },
        { role := "assistant",
          content := reply_for (llm (assemble_messages b st.chatHistory input)) }],
        by simp [run_turn, hi]⟩, fun _ => by simp [run_turn, hi],
      fun h => ?_⟩
    simp only [run_turn, hi, if_neg, List.length_append]
    obtain ⟨k, hk⟩ := h
    exact ⟨k + 1, by simp; omega⟩

/-- C2 witness: the theorem applied at a concrete exchange starting from an
even (empty) history. -/
theorem history_pairing_invariant_witness :
    ((run_turn sample_bundle llm_ok env_ok "ua" "t" 0 st0 "hola").1).chatHistory =
      st0.chatHistory ++
        [{ role := "user", content := "hola" },
         { role := "assistant",
           content := reply_for (llm_ok (assemble_messages sample_bundle st0.chatHistory "hola")) }]
    ∧ Even ((run_turn sample_bundle llm_ok env_ok "ua" "t" 0 st0 "hola").1).chatHistory.length :=
  ⟨(history_pairing_invariant sample_bundle llm_ok env_ok "ua" "t" 0 st0 "hola").2.1
     (by decide),
   (history_pairing_invariant sample_bundle llm_ok env_ok "ua" "t" 0 st0 "hola").2.2
     (by decide)⟩

/-- C3: when the completion call raises, the orchestrator still appends
exactly one user turn and one assistant turn, the assistant content is the
visible error-description string, and the session stays usable: any later
non-empty input again appends a user/assistant pair. -/
theorem completion_failure_turn (b : ContextBundle)
    (llm : List Message → Except String String) (env : GSheetsEnv)
    (ua now : String) (d : Nat) (st : SessionState) (input e : String)
    (hi : input ≠ "")
    (hf : llm (assemble_messages b st.chatHistory input) = .error e) :
    ((run_turn b llm env ua now d st input).1).chatHistory =
      st.chatHistory ++
        [{ role := "user", content := input },
         { role := "assistant", content := "Error consultando el modelo: " ++ e }]
    ∧ ∀ (llm₂ : List Message → Except String String) (env₂ : GSheetsEnv)
        (ua₂ now₂ : String) (d₂ : Nat) (input₂ : String), input₂ ≠ "" →
        ∃ r₂,
          ((run_turn b llm₂ env₂ ua₂ now₂ d₂
              (run_turn b llm env ua now d st input).1 input₂).1).chatHistory =
            ((run_turn b llm env ua now d st input).1).chatHistory ++
              [{ role := "user", content := input₂ },
               { role := "assistant", content := r₂ }] := by
  constructor
  · simp [run_turn, hi, hf, reply_for]
  · intro llm₂ env₂ ua₂ now₂ d₂ input₂ hi₂
    exact ⟨reply_for (llm₂ (assemble_messages b
        ((run_turn b llm env ua now d st input).1).chatHistory input₂)),
      by simp [run_turn, hi₂]⟩

/-- C3 witness: the theorem applied at a concrete failing completion
call. -/
theorem completion_failure_turn_witness :
    ((run_turn sample_bundle llm_fail env_ok "ua" "t" 0 st0 "hola").1).chatHistory =
      st0.chatHistory ++
        [{ role := "user", content := "hola" },
         { role := "assistant", content := "Error consultando el modelo: " ++ "boom" }] :=
  (completion_failure_turn sample_bundle llm_fail env_ok "ua" "t" 0 st0
    "hola" "boom" (by decide) rfl).1

/-- Whether an `Except` outcome is a success. -/
def except_ok : Except String Unit → Bool
  | .ok _ => true
  | .error _ => false

/-- Whether the whole logging path can succeed: credentials present and the
three fallible steps succeed. -/
def gsheets_ok (env : GSheetsEnv) : Bool :=
  env.credentialsJson.isSome && except_ok env.authResult &&
    except_ok env.openResult && except_ok env.appendResult

/-- C4: the session state produced by a turn does not depend on the logging
environment at all (so any logging failure leaves the history identical to
the success-path outcome, the exchange completes, and nothing propagates:
`log_interaction` is total and returns an outcome); moreover every failing
logging environment yields only a warning, never an appended row. -/
theorem log_failure_isolated (b : ContextBundle)
    (llm : List Message → Except String String) (env env' : GSheetsEnv)
    (ua now : String) (d : Nat) (st : SessionState) (input : String) :
    (run_turn b llm env ua now d st input).1 =
      (run_turn b llm env' ua now d st input).1
    ∧ (gsheets_ok env = false →
        ∀ r : InteractionRecord, ∃ w, log_interaction env r = .warned w) := by
  constructor
  · by_cases hi : input = "" <;> simp [run_turn, hi]
  · intro hfail r
    obtain ⟨cj, ar, orr, apr⟩ := env
    cases cj with
    | none => exact ⟨_, rfl⟩
    | some c =>
      cases ar with
      | error e => exact ⟨_, rfl⟩
      | ok u =>
        cases orr with
        | error e => exact ⟨_, rfl⟩
        | ok u' =>
          cases apr with
          | error e => exact ⟨_, rfl⟩
          | ok u'' => simp [gsheets_ok, except_ok] at hfail

/-- C4 witness: the theorem applied with a failing (missing-credentials)
environment against the fully working one. -/
theorem log_failure_isolated_witness :
    (run_turn sample_bundle llm_ok env_missing_creds "ua" "t" 0 st0 "hola").1 =
      (run_turn sample_bundle llm_ok env_ok "ua" "t" 0 st0 "hola").1
    ∧ ∃ w, log_interaction env_missing_creds sample_record = .warned w :=
  ⟨(log_failure_isolated sample_bundle llm_ok env_missing_creds env_ok
      "ua" "t" 0 st0 "hola").1,
   (log_failure_isolated sample_bundle llm_ok env_missing_creds env_ok
      "ua" "t" 0 st0 "hola").2 (by decide) sample_record⟩

/-- C9: whenever `log_interaction` appends a row, that row is exactly the
record's fields in the fixed column order: timestamp, session id, user
input, assistant reply, duration, client identifier. -/
theorem log_row_field_order (env : GSheetsEnv) (r : InteractionRecord)
    (row : List Cell) (h : log_interaction env r = .appended row) :
    row = [Cell.str r.timestampUtc, Cell.str r.sessionId,
           Cell.str r.userInput, Cell.str r.assistantReply,
           Cell.int r.durationMs, Cell.str r.clientIdentifier] := by
  obtain ⟨cj, ar, orr, apr⟩ := env
  cases cj <;> cases ar <;> cases orr <;> cases apr <;>
    simp [log_interaction, get_gsheets_client, row_of] at h
  exact h.symm

/-- C9 witness: the theorem applied at a concrete working environment and
record. -/
theorem log_row_field_order_witness :
    row_of sample_record =
      [Cell.str "2024-01-01T00:00:00", Cell.str "sess", Cell.str "hola",
       Cell.str "hola", Cell.int 5, Cell.str "streamlit-client"] :=
  log_row_field_order env_ok sample_record (row_of sample_record) rfl

/-- C6 counterexample: the claim says every empty *or blank
(whitespace-only)* input is a no-op, but `if user_input:` only filters the
empty string: the single-space input `" "` triggers a full exchange (two
turns appended and a log attempt made). -/
theorem blank_input_not_noop_cex :
    ((run_turn sample_bundle llm_ok env_ok "ua" "t" 0 st0 " ").1).chatHistory =
      [{ role := "user", content := " " }, { role := "assistant", content := "hola" }]
    ∧ (run_turn sample_bundle llm_ok env_ok "ua" "t" 0 st0 " ").2 ≠ none
    ∧ ([{ role := "user", content := " " },
        { role := "assistant", content := "hola" }] : List Message) ≠
        st0.chatHistory := by
  refine ⟨by decide, by decide, by decide⟩

/-- C6 amended: only the *empty* input is a no-op (no assembly, completion
call, append, or log attempt); every non-empty input — including
whitespace-only input — triggers a full exchange with two appended turns
and a log attempt. -/
theorem empty_input_noop (b : ContextBundle)
    (llm : List Message → Except String String) (env : GSheetsEnv)
    (ua now : String) (d : Nat) (st : SessionState) :
    run_turn b llm env ua now d st "" = (st, none)
    ∧ ∀ input, input ≠ "" →
        ((run_turn b llm env ua now d st input).1).chatHistory.length =
          st.chatHistory.length + 2
        ∧ (run_turn b llm env ua now d st input).2 ≠ none := by
  refine ⟨by simp [run_turn], fun input hi => ⟨?_, ?_⟩⟩
  · simp [run_turn, hi]
  · simp [run_turn, hi]

/-- C6 amended witness: the theorem applied at the whitespace-only input
`" "`. -/
theorem empty_input_noop_witness :
    ((run_turn sample_bundle llm_ok env_ok "ua" "t" 0 st0 " ").1).chatHistory.length =
      st0.chatHistory.length + 2
    ∧ (run_turn sample_bundle llm_ok env_ok "ua" "t" 0 st0 " ").2 ≠ none :=
  (empty_input_noop sample_bundle llm_ok env_ok "ua" "t" 0 st0).2 " " (by decide)

/-- C5 counterexample: the claim says the context bundle is loaded exactly
once per session, but `main` reloads it on every Streamlit rerun: a
concrete session with two reruns performs two context loads, not one. -/
theorem context_reloaded_each_rerun_cex :
    ((run_session st0 [(sample_fs, sample_ctx), (sample_fs, sample_ctx)]).2).length = 2
    ∧ (2 : Nat) ≠ 1 := by
  exact ⟨rfl, by decide⟩

/-- C5 amended: the context bundle is loaded once per *rerun* (so a session
with `n` reruns loads it `n` times, not once); the bundle value is never
mutated, so as long as the underlying sources are unchanged every turn of
the session works with identical bundle content. -/
theorem context_load_per_rerun (st : SessionState)
    (steps : List (FileSystem × TurnCtx)) (fs : FileSystem) :
    ((run_session st steps).2).length = steps.length
    ∧ ((∀ s ∈ steps, s.1 = fs) →
        (run_session st steps).2 = steps.map (fun _ => load_context fs)) := by
  induction steps generalizing st with
  | nil => exact ⟨rfl, fun _ => rfl⟩
  | cons s rest ih =>
    refine ⟨?_, ?_⟩
    · simpa [run_session, rerun] using ((ih _).1)
    · intro hfs
      have hs : s.1 = fs := hfs s (List.mem_cons_self s rest)
      have hrest : ∀ x ∈ rest, x.1 = fs :=
        fun x hx => hfs x (List.mem_cons_of_mem s hx)
      simp only [run_session, rerun, List.map_cons]
      exact congrArg₂ List.cons (congrArg load_context hs)
        (((ih _).2) hrest)

/-- C5 amended witness: the theorem applied at a concrete one-rerun session
over a fixed file system. -/
theorem context_load_per_rerun_witness :
    (run_session st0 [(sample_fs, sample_ctx)]).2 =
      [load_context sample_fs] :=
  (context_load_per_rerun st0 [(sample_fs, sample_ctx)] sample_fs).2
    (fun s hs => by rw [List.mem_singleton] at hs; rw [hs])

/-- A well-formed completion response body whose first choice's message
content is `"hola"`. -/
def ok_llm_body : Json :=
  Json.obj [("choices",
    Json.arr [Json.obj [("message", Json.obj [("content", Json.str "hola")])]])]

/-- A network that always answers with status 304 (non-2xx, but below 400)
and the well-formed body. -/
def send_304 : List Message → Nat → HttpOutcome :=
  fun _ _ => HttpOutcome.response 304 (HttpBody.json ok_llm_body)

/-- A response body whose first choice's message content is present but is
the number 42, not a string. -/
def num_content_body : Json :=
  Json.obj [("choices",
    Json.arr [Json.obj [("message", Json.obj [("content", Json.num 42)])]])]

/-- A network that always answers with status 200 and the non-string
content body. -/
def send_200_num : List Message → Nat → HttpOutcome :=
  fun _ _ => HttpOutcome.response 200 (HttpBody.json num_content_body)

/-- C7 counterexample: the claim says every non-2xx response status and
every unexpected response shape is surfaced as a failure, but (a)
`raise_for_status()` raises only for statuses 400-599, so a 304 response
with a well-formed body is returned as a *successful* reply although 304 is
not a 2xx status; and (b) a present first-choice `content` that is not a
string (here the number 42) is silently returned as a successful reply,
not surfaced as an error. -/
theorem non2xx_not_error_cex :
    (call_llm_api send_304 []).1 = Except.ok (Json.str "hola")
    ∧ ¬ (200 ≤ 304 ∧ 304 < 300)
    ∧ (call_llm_api send_200_num []).1 = Except.ok (Json.num 42) := by
  exact ⟨rfl, by decide, rfl⟩

/-- C7 amended: the gateway makes a single attempt with the fixed timeout
(60); a transport failure or timeout surfaces as an error carrying the
exception's text; any 4xx/5xx status surfaces as an error naming the
status; for any other status the result is exactly the extraction of
`body["choices"][0]["message"]["content"]` — an error carrying a cause when
the subscripting breaks (non-JSON body, missing key, empty or non-list
choices), and otherwise the first choice's content value returned as-is,
whatever its type.  (A non-2xx status below 400 is *not* treated as a
failure by status alone, and a non-string content is *not* surfaced as an
error.) -/
theorem call_llm_api_behavior (send : List Message → Nat → HttpOutcome)
    (messages : List Message) :
    (call_llm_api send messages).2 = 1
    ∧ (∀ e, send messages request_timeout = .transportError e →
        (call_llm_api send messages).1 = .error e)
    ∧ (∀ status body, send messages request_timeout = .response status body →
        400 ≤ status → status < 600 →
        (call_llm_api send messages).1 =
          .error ("HTTPError: status " ++ toString status))
    ∧ (∀ status body, send messages request_timeout = .response status body →
        ¬ (400 ≤ status ∧ status < 600) →
        (call_llm_api send messages).1 = extract_content body)
    ∧ (∀ status body v, send messages request_timeout = .response status body →
        ¬ (400 ≤ status ∧ status < 600) → extract_content body = .ok v →
        (call_llm_api send messages).1 = .ok v) := by
  refine ⟨?_, ?_, ?_, ?_, ?_⟩
  · unfold call_llm_api
    cases h : send messages request_timeout with
    | transportError e => rfl
    | response status body =>
      by_cases hs : 400 ≤ status ∧ status < 600
      · simp [hs]
      · simp only [if_neg hs]
        cases hx : extract_content body <;> rfl
  · intro e h
    unfold call_llm_api
    rw [h]
  · intro status body h h4 h6
    unfold call_llm_api
    rw [h]
    simp [h4, h6]
  · intro status body h hs
    unfold call_llm_api
    rw [h]
    simp only [if_neg hs]
    cases hx : extract_content body <;> simp [hx]
  · intro status body v h hs hv
    unfold call_llm_api
    rw [h]
    simp only [if_neg hs]
    rw [hv]

/-- C7 amended witness: the theorem applied at the concrete 304-answering
network and at the concrete non-string-content network. -/
theorem call_llm_api_behavior_witness :
    (call_llm_api send_304 []).2 = 1
    ∧ (call_llm_api send_304 []).1 = extract_content (HttpBody.json ok_llm_body)
    ∧ (call_llm_api send_200_num []).1 = Except.ok (Json.num 42) :=
  ⟨(call_llm_api_behavior send_304 []).1,
   (call_llm_api_behavior send_304 []).2.2.2.1 304 (HttpBody.json ok_llm_body)
     rfl (by decide),
   (call_llm_api_behavior send_200_num []).2.2.2.2 200
     (HttpBody.json num_content_body) (Json.num 42) rfl (by decide) rfl⟩

/-- Formalization of the claim's words for the present-document case: the
page texts concatenated with newline separators. -/
def cv_text_spec (pages : List String) : String :=
  String.intercalate "\n" pages

/-- Each page text followed by a newline, concatenated; the raw
accumulation performed by the `load_cv` loop before `.strip()`. -/
def pages_joined (pages : List String) : String :=
  match pages with
  | [] => ""
  | t :: rest => t ++ "\n" ++ pages_joined rest

/-- The `load_cv` loop accumulates exactly the newline-join of the pages
whose extracted text is non-empty: empty extractions are skipped. -/
theorem load_cv_foldl (pages : List String) (acc : String) :
    pages.foldl (fun acc t => if t = "" then acc else acc ++ t ++ "\n") acc =
      acc ++ pages_joined (pages.filter (fun t => t ≠ "")) := by
  induction pages generalizing acc with
  | nil => exact (String.append_empty acc).symm
  | cons t rest ih =>
    by_cases ht : t = ""
    · subst ht
      have h2 : ("" :: rest).filter (fun t => t ≠ "") =
          rest.filter (fun t => t ≠ "") := by simp
      rw [List.foldl_cons, if_pos rfl, h2, ih]
    · have h2 : (t :: rest).filter (fun t => t ≠ "") =
          t :: rest.filter (fun t => t ≠ "") := by simp [ht]
      rw [List.foldl_cons, if_neg ht, h2, ih]
      apply String.ext
      simp [pages_joined]

/-- C8 counterexample: the claim predicts that a present document's pages
are concatenated with newline separators, but `load_cv` passes the result
through `.strip()`: for the single page `" a"` the code returns `"a"`,
while the newline-join of the pages is `" a"`. -/
theorem load_cv_strip_cex :
    load_cv (some [" a"]) = "a"
    ∧ cv_text_spec [" a"] = " a"
    ∧ load_cv (some [" a"]) ≠ cv_text_spec [" a"] := by
  exact ⟨by decide, rfl, by decide⟩

/-- C8 amended: if the reference document is absent the loaded reference
text is the empty string and context loading still succeeds (absence is not
an error); if it is present, the pages with non-empty extracted text are
concatenated — each followed by a newline separator, empty extractions
skipped — and the result is returned stripped of leading and trailing
whitespace. -/
theorem load_cv_behavior :
    load_cv none = ""
    ∧ (∀ fs : FileSystem, fs.cvPdfPages = none → (load_context fs).cv_text = "")
    ∧ ∀ pages, load_cv (some pages) =
        strip (pages_joined (pages.filter (fun t => t ≠ ""))) := by
  refine ⟨rfl, fun fs h => ?_, fun pages => ?_⟩
  · show load_cv fs.cvPdfPages = ""
    rw [h]
    rfl
  · unfold load_cv
    simp only []
    rw [load_cv_foldl pages "", String.empty_append]

/-- C8 amended witness: the theorem applied at a concrete document whose
middle page has an empty extraction — the result is the newline-join of the
two non-empty pages. -/
theorem load_cv_behavior_witness :
    load_cv (some ["a", "", "b"]) = "a\nb"
    ∧ load_cv none = "" :=
  ⟨load_cv_behavior.2.2 ["a", "", "b"], load_cv_behavior.1⟩

/-- A turn never drops a message already in the history. -/
theorem run_turn_preserves_mem (m : Message) (b : ContextBundle)
    (llm : List Message → Except String String) (env : GSheetsEnv)
    (ua now : String) (d : Nat) (st : SessionState) (input : String)
    (hm : m ∈ st.chatHistory) :
    m ∈ ((run_turn b llm env ua now d st input).1).chatHistory := by
  by_cases hi : input = ""
  · simpa [run_turn, hi] using hm
  · simp only [run_turn, if_neg hi]
    exact List.mem_append_left _ hm

/-- A whole session of reruns never drops a message already in the
history. -/
theorem run_session_preserves_mem (m : Message) (st : SessionState)
    (steps : List (FileSystem × TurnCtx)) (hm : m ∈ st.chatHistory) :
    m ∈ ((run_session st steps).1).chatHistory := by
  induction steps generalizing st with
  | nil => simpa [run_session] using hm
  | cons s rest ih =>
    simp only [run_session, rerun]
    exact ih _ (run_turn_preserves_mem m _ s.2.llm s.2.env s.2.userAgent
      s.2.now s.2.durationMs st s.2.input hm)

/-- C10: after a turn whose completion call fails, the synthesized
error-description string sits in the history as an ordinary assistant turn,
so the message sequence assembled on any subsequent turn of the session —
after arbitrarily many further reruns — contains it verbatim as assistant
content. -/
theorem error_reply_in_later_messages (b : ContextBundle)
    (llm : List Message → Except String String) (env : GSheetsEnv)
    (ua now : String) (d : Nat) (st : SessionState) (input e : String)
    (hi : input ≠ "")
    (hf : llm (assemble_messages b st.chatHistory input) = .error e)
    (steps : List (FileSystem × TurnCtx)) (b' : ContextBundle)
    (input' : String) :
    ({ role := "assistant", content := "Error consultando el modelo: " ++ e } : Message) ∈
      assemble_messages b'
        ((run_session (run_turn b llm env ua now d st input).1 steps).1).chatHistory
        input' := by
  have h1 : (Message.mk "assistant" ("Error consultando el modelo: " ++ e)) ∈
      ((run_turn b llm env ua now d st input).1).chatHistory := by
    simp [run_turn, hi, hf, reply_for]
  have h2 := run_session_preserves_mem _ _ steps h1
  unfold assemble_messages
  exact List.mem_cons_of_mem _ (List.mem_append_left _ h2)

/-- C10 witness: the theorem applied at a concrete failing turn followed by
one further rerun. -/
theorem error_reply_in_later_messages_witness :
    ({ role := "assistant",
       content := "Error consultando el modelo: " ++ "boom" } : Message) ∈
      assemble_messages sample_bundle
        ((run_session (run_turn sample_bundle llm_fail env_ok "ua" "t" 0
            st0 "hola").1 [(sample_fs, sample_ctx)]).1).chatHistory
        "otra" :=
  error_reply_in_later_messages sample_bundle llm_fail env_ok "ua" "t" 0
    st0 "hola" "boom" (by decide) rfl [(sample_fs, sample_ctx)]
    sample_bundle "otra"

end AsistenteVirtual
